import Mathlib

set_option autoImplicit false

/-!
Verification of the medium-scraper MCP server
(`medium_scraper_mcp/server.py`, `medium_scraper_mcp/cli.py`).

The HTML documents handled by the server are modelled as a tree of nodes
(`Node`), the shape produced by the external BeautifulSoup parser.  The
element-lookup operations used by the server (`soup.find`, `soup.find_all`,
`element.find`, `get_text`, attribute access) are modelled over that tree,
and the external `markdownify.MarkdownConverter` is modelled by `mdConvert`
for the element kinds exercised here.  Python string operations used by the
source (`str.strip`, `str.split`, `str.startswith`, slicing) are modelled by
the `py*` helpers, and `json.dumps(..., indent=2)` by the `jsonDumps*`
functions.  All other definitions are direct transliterations of the
functions in `server.py` and `cli.py`.
-/

namespace MediumScraper

/-- Parsed HTML tree node: either a text node or an element with a tag,
attributes and children (model of BeautifulSoup's element tree). -/
inductive Node where
  | text (s : String)
  | elem (tag : String) (attrs : List (String × String)) (children : List Node)

/-- First value bound to a key in an attribute list (model of the attribute
dictionary of a parsed element). -/
def lookupAttr : List (String × String) → String → Option String
  | [], _ => none
  | (k, v) :: rest, key => if k = key then some v else lookupAttr rest key

/-- Attribute access on a node, `element.get(key)` / `element[key]`. -/
def Node.getAttr : Node → String → Option String
  | .text _, _ => none
  | .elem _ attrs _, key => lookupAttr attrs key

/-- Does this node match a tag name together with an attribute/value query
(the `soup.find(tag, {attr: value})` filter)? -/
def Node.matchesTagAttrs (n : Node) (tag : String) (query : List (String × String)) : Bool :=
  match n with
  | .text _ => false
  | .elem t _ _ => t == tag && query.all fun kv => Node.getAttr n kv.1 == some kv.2

mutual
/-- All element nodes of a subtree in document (preorder) order, the root
element included. -/
def Node.allElems : Node → List Node
  | .text _ => []
  | .elem t a cs => .elem t a cs :: allElemsList cs

/-- All element nodes of a forest in document (preorder) order. -/
def allElemsList : List Node → List Node
  | [] => []
  | n :: ns => Node.allElems n ++ allElemsList ns
end

/-- Model of `soup.find_all(tag, query)`: every element of the document
matching the tag and attribute query, in document order. -/
def find_all (doc : List Node) (tag : String) (query : List (String × String)) : List Node :=
  (allElemsList doc).filter fun n => n.matchesTagAttrs tag query

/-- Model of `soup.find(tag, query)`: the first matching element of the
document, if any. -/
def soupFind (doc : List Node) (tag : String) (query : List (String × String)) : Option Node :=
  (find_all doc tag query).head?

/-- Model of `element.find(tag, query)`: the first matching element among
the strict descendants of `n`. -/
def Node.findDesc (n : Node) (tag : String) (query : List (String × String)) : Option Node :=
  match n with
  | .text _ => none
  | .elem _ _ cs => soupFind cs tag query

mutual
/-- Model of `element.get_text()`: concatenation of all text descendants in
document order. -/
def Node.getText : Node → String
  | .text s => s
  | .elem _ _ cs => getTextList cs

/-- Concatenated text of a forest in document order (`soup.get_text()` on a
whole document). -/
def getTextList : List Node → String
  | [] => ""
  | n :: ns => Node.getText n ++ getTextList ns
end

/-- Python whitespace predicate for `str.strip` / `str.split`. -/
def pyIsSpace (c : Char) : Bool :=
  c == ' ' || c == '\t' || c == '\n' || c == '\r' || c == '\x0b' || c == '\x0c'

/-- Model of Python `str.strip()`: drop leading and trailing whitespace. -/
def pyStrip (s : String) : String :=
  String.mk (((s.toList.dropWhile pyIsSpace).reverse.dropWhile pyIsSpace).reverse)

/-- Model of Python slicing `s[:n]` on strings (`n ≥ 0`). -/
def pyTake (n : Nat) (s : String) : String :=
  String.mk (s.toList.take n)

/-- Model of Python `s.startswith(p)`. -/
def pyStartsWith (s p : String) : Bool :=
  s.toList.take p.toList.length == p.toList

/-- Worker for `pySplit`: walks the characters, accumulating the current
(reversed) word. -/
def pySplitAux : List Char → List Char → List String
  | [], [] => []
  | [], acc => [String.mk acc.reverse]
  | c :: cs, acc =>
    if pyIsSpace c then
      match acc with
      | [] => pySplitAux cs []
      | _ => String.mk acc.reverse :: pySplitAux cs []
    else pySplitAux cs (c :: acc)

/-- Model of Python `str.split()` with no separator: split on whitespace
runs, discarding empty pieces. -/
def pySplit (s : String) : List String :=
  pySplitAux s.toList []

/-- Worker for `countWords`; the flag records whether the previous character
belonged to a word. -/
def countWordsAux : List Char → Bool → Nat
  | [], _ => 0
  | c :: cs, inWord =>
    if pyIsSpace c then countWordsAux cs false
    else (if inWord then 0 else 1) + countWordsAux cs true

/-- Specification-side word counter: the number of maximal whitespace-free
runs of a string. -/
def countWords (s : String) : Nat :=
  countWordsAux s.toList false

mutual
/-- Model of the external `markdownify.MarkdownConverter` configured in
`_convert_medium_to_markdown` (`heading_style="ATX"`, `bullets="-"`,
`strip=['script', 'style']`, escaping disabled), for the element kinds
exercised here: `script`/`style` subtrees are stripped, ATX headings,
`-` bullets, emphasis markers, image references, and all other elements
render their children in document order. -/
def mdConvert : Node → String
  | .text s => s
  | .elem tag attrs cs =>
    if tag == "script" || tag == "style" then ""
    else if tag == "img" then
      "![" ++ ((lookupAttr attrs "alt").getD "") ++ "](" ++ ((lookupAttr attrs "src").getD "") ++ ")"
    else
      let inner := mdConvertList cs
      if tag == "h1" then "# " ++ inner ++ "\n\n"
      else if tag == "h2" then "## " ++ inner ++ "\n\n"
      else if tag == "h3" then "### " ++ inner ++ "\n\n"
      else if tag == "h4" then "#### " ++ inner ++ "\n\n"
      else if tag == "h5" then "##### " ++ inner ++ "\n\n"
      else if tag == "h6" then "###### " ++ inner ++ "\n\n"
      else if tag == "p" then inner ++ "\n\n"
      else if tag == "li" then "- " ++ inner ++ "\n"
      else if tag == "ul" || tag == "ol" then inner ++ "\n"
      else if tag == "em" then "*" ++ inner ++ "*"
      else if tag == "strong" then "**" ++ inner ++ "**"
      else if tag == "br" then "\n"
      else if tag == "a" then "[" ++ inner ++ "](" ++ ((lookupAttr attrs "href").getD "") ++ ")"
      else inner

/-- Rendering of a forest of nodes by the converter model. -/
def mdConvertList : List Node → String
  | [] => ""
  | n :: ns => mdConvert n ++ mdConvertList ns
end

/-- One search result, the dictionary built in `_search_medium_articles`. -/
structure ArticleSummary where
  title : String
  url : String
  author : String
  snippet : String
deriving Repr, DecidableEq

/-- The metadata record built in `_get_medium_article_info`. -/
structure ArticleInfo where
  title : String
  author : String
  reading_time : String
  publish_date : Option String
  url : String
  word_count : Nat
deriving Repr, DecidableEq

/-- Model of `mcp.types.TextContent`; `ty` stands for the `type` field,
always `"text"` here. -/
structure TextContent where
  ty : String
  text : String
deriving Repr, DecidableEq

/-- Hexadecimal digit character for JSON escapes. -/
def hexDigit (n : Nat) : Char :=
  if n < 10 then Char.ofNat (48 + n) else Char.ofNat (87 + n)

/-- Four-digit lowercase hexadecimal rendering used by `\uXXXX` escapes. -/
def hex4 (n : Nat) : String :=
  String.mk [hexDigit (n / 4096 % 16), hexDigit (n / 256 % 16), hexDigit (n / 16 % 16), hexDigit (n % 16)]

/-- JSON escape of a single character, as `json.dumps` with the default
`ensure_ascii=True` produces it. -/
def jsonEscapeChar (c : Char) : String :=
  if c == '"' then "\\\""
  else if c == '\\' then "\\\\"
  else if c == '\n' then "\\n"
  else if c == '\t' then "\\t"
  else if c == '\r' then "\\r"
  else if c == '\x08' then "\\b"
  else if c == '\x0c' then "\\f"
  else if c.toNat < 32 then "\\u00" ++ String.mk [hexDigit (c.toNat / 16), hexDigit (c.toNat % 16)]
  else if c.toNat ≤ 126 then String.singleton c
  else if c.toNat < 65536 then "\\u" ++ hex4 c.toNat
  else "\\u" ++ hex4 (55296 + (c.toNat - 65536) / 1024) ++ "\\u" ++ hex4 (56320 + (c.toNat - 65536) % 1024)

/-- JSON string literal for `s`. -/
def jsonStr (s : String) : String :=
  "\"" ++ String.join (s.toList.map jsonEscapeChar) ++ "\""

/-- One summary dictionary as `json.dumps(articles, indent=2)` renders it
inside the top-level list (keys in insertion order). -/
def summaryJson (a : ArticleSummary) : String :=
  "\x7b\n    \"title\": " ++ jsonStr a.title ++ ",\n    \"url\": " ++ jsonStr a.url
    ++ ",\n    \"author\": " ++ jsonStr a.author ++ ",\n    \"snippet\": " ++ jsonStr a.snippet
    ++ "\n  \x7d"

/-- Model of `json.dumps(articles, indent=2)` on the list of summaries. -/
def jsonDumpsSummaries : List ArticleSummary → String
  | [] => "[]"
  | a :: rest => "[\n  " ++ String.intercalate ",\n  " ((a :: rest).map summaryJson) ++ "\n]"

/-- Model of `json.dumps(info, indent=2)` on the metadata record. -/
def jsonDumpsInfo (i : ArticleInfo) : String :=
  "\x7b\n  \"title\": " ++ jsonStr i.title
    ++ ",\n  \"author\": " ++ jsonStr i.author
    ++ ",\n  \"reading_time\": " ++ jsonStr i.reading_time
    ++ ",\n  \"publish_date\": " ++ (match i.publish_date with | some d => jsonStr d | none => "null")
    ++ ",\n  \"url\": " ++ jsonStr i.url
    ++ ",\n  \"word_count\": " ++ toString i.word_count
    ++ "\n\x7d"

/-- Model of Python slicing `xs[:limit]` for an arbitrary (possibly
negative) integer bound: a nonnegative bound takes that many leading
elements, a negative bound drops that many trailing elements. -/
def pySliceTo {α : Type} (limit : Int) (xs : List α) : List α :=
  if 0 ≤ limit then xs.take limit.toNat
  else xs.take (xs.length - (-limit).toNat)

/-- The `href` of the first link descendant of a search-result container,
defaulting to the empty string (`element.find('a').get('href', '')`). -/
def firstHref (element : Node) : String :=
  match Node.findDesc element "a" [] with
  | some ue => (Node.getAttr ue "href").getD ""
  | none => ""

/-- The summary dictionary built from a title element, a link element and
an optional author element (body of the `if title_elem and url_elem`
branch in `_search_medium_articles`, lines 166-178 of `server.py`). -/
def mkSummary (title_elem url_elem : Node) (author_elem : Option Node) : ArticleSummary :=
  let title := pyStrip (Node.getText title_elem)
  let url0 := (Node.getAttr url_elem "href").getD ""
  { title := title
    url := if pyStartsWith url0 "/" then "https://medium.com" ++ url0 else url0
    author := match author_elem with
      | some ae => pyStrip (Node.getText ae)
      | none => "Unknown"
    snippet := if title.length > 100 then pyTake 100 title ++ "..." else title }

/-- Per-container extraction of `_search_medium_articles`: title from `h3`
falling back to `h2`, author from the `authorName` link, URL from the
first link; the container is skipped unless both a title and a link are
found. -/
def parseSearchResult (element : Node) : Option ArticleSummary :=
  match (Node.findDesc element "h3" []).orElse (fun _ => Node.findDesc element "h2" []),
        Node.findDesc element "a" [] with
  | some te, some ue => some (mkSummary te ue (Node.findDesc element "a" [("data-testid", "authorName")]))
  | _, _ => none

/-- Model of `_search_medium_articles` on an already-fetched results page:
all `div` elements with `data-test-id="postPreview"`, sliced to `limit`,
each parsed into a summary (parse failures skipped). -/
def _search_medium_articles (doc : List Node) (limit : Int) : List ArticleSummary :=
  (pySliceTo limit (find_all doc "div" [("data-test-id", "postPreview")])).filterMap parseSearchResult

/-- The search tool handler: a fetch failure propagates as an error, a
fetched page yields the JSON-encoded summaries as one text payload. -/
def searchTool (page : Except String (List Node)) (limit : Int) : Except String (List TextContent) :=
  match page with
  | .error e => .error e
  | .ok doc => .ok [⟨"text", jsonDumpsSummaries (_search_medium_articles doc limit)⟩]

/-- Model of `_convert_medium_to_markdown`: on a fetched page, the first
`article` element is required (its absence raises
`"Could not find article content"`), the title is the stripped text of the
first `h1` of the whole page defaulting to `"Untitled"`, and the payload is
the title heading, a `**Source:**` line with the request URL, a `---`
separator, and the converted article subtree.  The two flags are accepted
but never used, as in the source. -/
def _convert_medium_to_markdown (page : Except String (List Node)) (url : String)
    (_include_images _include_code : Bool) : Except String (List TextContent) :=
  match page with
  | .error e => .error e
  | .ok doc =>
    match soupFind doc "article" [] with
    | none => .error "Could not find article content"
    | some article_content =>
      let title_text := match soupFind doc "h1" [] with
        | some t => pyStrip (Node.getText t)
        | none => "Untitled"
      .ok [⟨"text", "# " ++ title_text ++ "\n\n**Source:** " ++ url ++ "\n\n---\n\n"
              ++ mdConvert article_content⟩]

/-- Model of `_estimate_word_count`: whitespace-split token count of the
flattened text of the whole document. -/
def _estimate_word_count (doc : List Node) : Nat :=
  (pySplit (getTextList doc)).length

/-- The metadata record assembled by `_get_medium_article_info` from a
fetched page: first `h1` text, `authorName` link text and `readingTime`
span text (each stripped, defaulting to `"Unknown"`), the `datetime`
attribute of the first `time` element (defaulting to null), the request
URL, and the estimated word count. -/
def articleInfo (doc : List Node) (url : String) : ArticleInfo :=
  { title := match soupFind doc "h1" [] with
      | some t => pyStrip (Node.getText t)
      | none => "Unknown"
    author := match soupFind doc "a" [("data-testid", "authorName")] with
      | some a => pyStrip (Node.getText a)
      | none => "Unknown"
    reading_time := match soupFind doc "span" [("data-testid", "readingTime")] with
      | some r => pyStrip (Node.getText r)
      | none => "Unknown"
    publish_date := match soupFind doc "time" [] with
      | some t => Node.getAttr t "datetime"
      | none => none
    url := url
    word_count := _estimate_word_count doc }

/-- The info tool handler: a fetch failure propagates as an error, a
fetched page yields the JSON-encoded metadata record as one text payload. -/
def _get_medium_article_info (page : Except String (List Node)) (url : String) :
    Except String (List TextContent) :=
  match page with
  | .error e => .error e
  | .ok doc => .ok [⟨"text", jsonDumpsInfo (articleInfo doc url)⟩]

/-- One tool invocation: the tool name together with its arguments; the
`page` component is the outcome of the handler's HTTP fetch of the target
page (an `error` models a non-2xx status or transport failure, which the
handlers re-raise). -/
inductive ToolCall where
  | search (page : Except String (List Node)) (limit : Int)
  | convert (page : Except String (List Node)) (url : String) (include_images include_code : Bool)
  | info (page : Except String (List Node)) (url : String)
  | unknown (name : String)

/-- Body of the `try` block of `call_tool`: dispatch on the tool name; an
unknown name raises `ValueError(f"Unknown tool: ...")`. -/
def runToolCall : ToolCall → Except String (List TextContent)
  | .search page limit => searchTool page limit
  | .convert page url ii ic => _convert_medium_to_markdown page url ii ic
  | .info page url => _get_medium_article_info page url
  | .unknown name => .error ("Unknown tool: " ++ name)

/-- Model of the `call_tool` dispatch boundary (`server.py` lines 101-122):
any error raised by a handler is caught and returned as the single text
payload `"Error: <message>"`. -/
def call_tool (c : ToolCall) : List TextContent :=
  match runToolCall c with
  | .ok r => r
  | .error e => [⟨"text", "Error: " ++ e⟩]

/-- Parsed command-line arguments of `cli.py`. -/
structure CliArgs where
  stdio : Bool
  port : Option Int
  verbose : Bool
deriving Repr, DecidableEq

/-- Observable outcome of `cli.main`: either print a message to stderr and
exit with the given status, or start the stdio server. -/
inductive CliOutcome where
  | exitError (stderrMsg : String) (code : Nat)
  | runServer
deriving Repr, DecidableEq

/-- Python truthiness of the `args.port` value (`None` and `0` are falsy). -/
def pyTruthyOptInt : Option Int → Bool
  | none => false
  | some n => !(n == 0)

/-- Model of `cli.main` after argument parsing (`cli.py` lines 38-45):
`if args.port:` selects the unimplemented HTTP mode, which prints
`"HTTP mode not yet implemented"` to stderr and exits with status 1;
otherwise the stdio server runs. -/
def cliMain (args : CliArgs) : CliOutcome :=
  if pyTruthyOptInt args.port then .exitError "HTTP mode not yet implemented" 1
  else .runServer

/-! Concrete example documents used to instantiate the theorems. -/

/-- The article of the spec's conversion example:
`<article><h1>T</h1><p>hello world</p></article>`. -/
def c1Article : Node :=
  .elem "article" [] [.elem "h1" [] [.text "T"], .elem "p" [] [.text "hello world"]]

/-- A page whose body contains `c1Article`. -/
def c1Doc : List Node :=
  [.elem "html" [] [.elem "body" [] [c1Article]]]

/-- A page with no `article` element. -/
def noArticleDoc : List Node :=
  [.elem "html" [] [.elem "p" [] [.text "x"]]]

/-- One post-preview container for a search-results page, with an `h3`
title, an author link and a site-relative href. -/
def previewDiv (t : String) : Node :=
  .elem "div" [("data-test-id", "postPreview")]
    [.elem "h3" [] [.text t],
     .elem "a" [("href", "/p/" ++ t), ("data-testid", "authorName")] [.text ("auth" ++ t)]]

/-- A search-results page with five matching post-preview containers. -/
def c3Doc : List Node :=
  [.elem "body" [] [previewDiv "t1", previewDiv "t2", previewDiv "t3", previewDiv "t4", previewDiv "t5"]]

/-- A search-results page with zero matching containers. -/
def emptyResultsDoc : List Node :=
  [.elem "body" [] [.text "no results"]]

/-- A search-results page whose single container carries a link with a
non-site-relative, non-absolute href. -/
def c4Doc : List Node :=
  [.elem "div" [("data-test-id", "postPreview")]
    [.elem "h3" [] [.text "t"], .elem "a" [("href", "relative-path")] [.text "x"]]]

/-- A title of 101 characters, one more than the truncation threshold. -/
def longTitle : String :=
  "aaaaaaaaaaaaaaaaaaaaaaaaaaaaaaaaaaaaaaaaaaaaaaaaaaaaaaaaaaaaaaaaaaaaaaaaaaaaaaaaaaaaaaaaaaaaaaaaaaaaa"

/-- A search-results page whose single container has the 101-character
title. -/
def c5Doc : List Node :=
  [.elem "div" [("data-test-id", "postPreview")]
    [.elem "h3" [] [.text longTitle], .elem "a" [("href", "/p")] []]]

/-- The summary the code produces for `c5Doc`: 101-character title,
100-character snippet plus the ellipsis marker. -/
def c5Summary : ArticleSummary :=
  { title := longTitle
    url := "https://medium.com/p"
    author := "Unknown"
    snippet := "aaaaaaaaaaaaaaaaaaaaaaaaaaaaaaaaaaaaaaaaaaaaaaaaaaaaaaaaaaaaaaaaaaaaaaaaaaaaaaaaaaaaaaaaaaaaaaaaaaaa..." }

/-- A page with title, author and reading-time nodes but no `time`
element. -/
def c7Doc : List Node :=
  [.elem "body" []
    [.elem "h1" [] [.text " My Title "],
     .elem "a" [("data-testid", "authorName")] [.text "Alice"],
     .elem "span" [("data-testid", "readingTime")] [.text "5 min read"]]]

/-- A page with an `article` element but no `h1` anywhere. -/
def c10Doc : List Node :=
  [.elem "article" [] [.elem "p" [] [.text "body text"]]]

/-! Helper lemmas shared by the claim theorems. -/

/-- Splitting with `pySplitAux` yields one piece per maximal whitespace-free
run, plus one for a pending accumulated word. -/
theorem pySplitAux_length (l : List Char) :
    ∀ acc : List Char,
      (pySplitAux l acc).length = (if acc.isEmpty then 0 else 1) + countWordsAux l (!acc.isEmpty) := by
  induction l with
  | nil =>
    intro acc
    cases acc <;> simp [pySplitAux, countWordsAux]
  | cons c cs ih =>
    intro acc
    by_cases h : pyIsSpace c
    · cases acc with
      | nil => simp [pySplitAux, countWordsAux, h, ih]
      | cons a as =>
        simp [pySplitAux, countWordsAux, h, ih]
        omega
    · cases acc <;> simp [pySplitAux, countWordsAux, h, ih, List.isEmpty]

/-- The length of a Python whitespace split is the number of maximal
whitespace-free runs. -/
theorem pySplit_length_eq (s : String) : (pySplit s).length = countWords s := by
  simpa using pySplitAux_length s.toList []

/-- A Python slice `xs[:limit]` is always an initial segment of `xs`. -/
theorem pySliceTo_eq_take {α : Type} (limit : Int) (xs : List α) :
    ∃ n, pySliceTo limit xs = xs.take n := by
  unfold pySliceTo
  split
  · exact ⟨_, rfl⟩
  · exact ⟨_, rfl⟩

/-- Every summary returned by the search comes from parsing some container
element. -/
theorem mem_search_exists_parse (doc : List Node) (limit : Int) (s : ArticleSummary)
    (h : s ∈ _search_medium_articles doc limit) :
    ∃ e, parseSearchResult e = some s := by
  unfold _search_medium_articles at h
  rcases List.mem_filterMap.1 h with ⟨e, _, he⟩
  exact ⟨e, he⟩

/-- Characterization of a successful per-container parse: the URL is the
first link's href, rewritten by prefixing the site origin exactly when the
href starts with `/`; the snippet is the title truncated at 100 characters
with an ellipsis marker when longer. -/
theorem parseSearchResult_some_char (e : Node) (s : ArticleSummary)
    (h : parseSearchResult e = some s) :
    s.url = (if pyStartsWith (firstHref e) "/" then "https://medium.com" ++ firstHref e
      else firstHref e) ∧
    s.snippet = (if s.title.length > 100 then pyTake 100 s.title ++ "..." else s.title) := by
  unfold parseSearchResult at h
  split at h
  case _ te ue h1 h2 =>
    have hs : s = mkSummary te ue (Node.findDesc e "a" [("data-testid", "authorName")]) :=
      (Option.some.injEq _ _ ▸ h).symm
    subst hs
    refine ⟨?_, rfl⟩
    simp only [firstHref, h2]
    rfl
  case _ =>
    exact absurd h (by simp)

/-- A string beginning with the site origin does not start with `/`. -/
theorem pyStartsWith_origin_slash (x : String) :
    pyStartsWith ("https://medium.com" ++ x) "/" = false := by
  have h1 : ("https://medium.com" ++ x).toList = "https://medium.com".toList ++ x.toList :=
    String.data_append _ _
  have h2 : "https://medium.com".toList = 'h' :: "ttps://medium.com".toList := by decide
  have h3 : "/".toList = ['/'] := by decide
  simp only [pyStartsWith, h1, h2, h3, List.cons_append, List.length_cons, List.length_nil,
    List.take_succ_cons, List.take_zero]
  decide

/-! Claim theorems. -/

/-- Claim C1: for every convert call on a fetched page with an `h1` title
element and an `article` container, the returned payload is exactly the
level-1 heading line with the stripped title, then the `**Source:**`
attribution line with the original request URL, then the `---` separator,
then the rendered article body — in that order. -/
theorem convert_output_heading_source_separator_body (doc : List Node) (url : String)
    (ii ic : Bool) (t a : Node)
    (ht : soupFind doc "h1" [] = some t) (ha : soupFind doc "article" [] = some a) :
    _convert_medium_to_markdown (.ok doc) url ii ic =
      .ok [⟨"text", "# " ++ pyStrip (Node.getText t) ++ "\n\n**Source:** " ++ url
        ++ "\n\n---\n\n" ++ mdConvert a⟩] := by
  simp [_convert_medium_to_markdown, ha, ht]

/-- Witness for C1: on the spec's example page
`<article><h1>T</h1><p>hello world</p></article>`, the convert output
starts with `# T`, has the `Source:` line with the URL and the `---`
separator, and then the body text `hello world`. -/
theorem convert_output_heading_source_separator_body_witness :
    _convert_medium_to_markdown (.ok c1Doc) "https://medium.com/p/x" true true =
      .ok [⟨"text", "# T\n\n**Source:** https://medium.com/p/x\n\n---\n\n# T\n\nhello world\n\n"⟩] := by
  have h := convert_output_heading_source_separator_body c1Doc "https://medium.com/p/x"
    true true (Node.elem "h1" [] [Node.text "T"]) c1Article rfl rfl
  exact h.trans (congrArg Except.ok (by decide))

/-- Claim C2: every handler error is caught at the `call_tool` dispatch
boundary and returned as the single text payload `Error: <message>`; in
particular, a convert call on a page with no `article` element yields the
payload `Error: Could not find article content`. -/
theorem call_tool_error_in_band :
    (∀ (c : ToolCall) (e : String), runToolCall c = .error e →
        call_tool c = [⟨"text", "Error: " ++ e⟩]) ∧
    (∀ (doc : List Node) (url : String) (ii ic : Bool),
        soupFind doc "article" [] = none →
        call_tool (.convert (.ok doc) url ii ic) =
          [⟨"text", "Error: Could not find article content"⟩]) := by
  constructor
  · intro c e h
    simp [call_tool, h]
  · intro doc url ii ic h
    simp [call_tool, runToolCall, _convert_medium_to_markdown, h]

/-- Witness for C2: the convert tool on a concrete page lacking an
`article` element returns the in-band error payload. -/
theorem call_tool_error_in_band_witness :
    call_tool (.convert (.ok noArticleDoc) "https://medium.com/p/x" true true) =
      [⟨"text", "Error: Could not find article content"⟩] :=
  call_tool_error_in_band.2 noArticleDoc "https://medium.com/p/x" true true rfl

/-- Counterexample to C3 as stated: the claim quantifies over every search
call, but `limit` is a plain integer and the code slices with Python
semantics, so a call with `limit = -1` on a page with five containers
returns four summaries, which is not "at most `limit`" of them. -/
theorem search_negative_limit_counterexample :
    (_search_medium_articles c3Doc (-1)).length = 4 ∧
    ¬ (((_search_medium_articles c3Doc (-1)).length : Int) ≤ -1) := by
  decide

/-- Claim C3 (amended to nonnegative limits): for every search call with
`limit ≥ 0` at most `limit` summaries are returned; the returned summaries
are always an initial segment of the summaries of all post-preview
containers in document order; a page with zero matching containers yields
the payload `[]`, not an error; and on the five-container page with
`limit = 3` exactly the first three summaries are returned in document
order. -/
theorem search_limit_and_document_order :
    (∀ (doc : List Node) (limit : Int), 0 ≤ limit →
        ((_search_medium_articles doc limit).length : Int) ≤ limit) ∧
    (∀ (doc : List Node) (limit : Int), ∃ rest,
        _search_medium_articles doc limit ++ rest =
          (find_all doc "div" [("data-test-id", "postPreview")]).filterMap parseSearchResult) ∧
    (∀ (doc : List Node) (limit : Int),
        find_all doc "div" [("data-test-id", "postPreview")] = [] →
        searchTool (.ok doc) limit = .ok [⟨"text", "[]"⟩]) ∧
    _search_medium_articles c3Doc 3 =
      [⟨"t1", "https://medium.com/p/t1", "autht1", "t1"⟩,
       ⟨"t2", "https://medium.com/p/t2", "autht2", "t2"⟩,
       ⟨"t3", "https://medium.com/p/t3", "autht3", "t3"⟩] := by
  refine ⟨?_, ?_, ?_, by decide⟩
  · intro doc limit h
    unfold _search_medium_articles pySliceTo
    rw [if_pos h]
    have h1 := List.length_filterMap_le parseSearchResult
      ((find_all doc "div" [("data-test-id", "postPreview")]).take limit.toNat)
    have h2 := List.length_take_le limit.toNat (find_all doc "div" [("data-test-id", "postPreview")])
    omega
  · intro doc limit
    rcases pySliceTo_eq_take limit (find_all doc "div" [("data-test-id", "postPreview")]) with ⟨n, hn⟩
    refine ⟨((find_all doc "div" [("data-test-id", "postPreview")]).drop n).filterMap
      parseSearchResult, ?_⟩
    rw [_search_medium_articles, hn, ← List.filterMap_append, List.take_append_drop]
  · intro doc limit h
    simp [searchTool, _search_medium_articles, h, pySliceTo, jsonDumpsSummaries]

/-- Witness for C3 (amended): the bound and the empty-page behavior at
concrete inputs. -/
theorem search_limit_and_document_order_witness :
    ((_search_medium_articles c3Doc 3).length : Int) ≤ 3 ∧
    searchTool (.ok emptyResultsDoc) 10 = .ok [⟨"text", "[]"⟩] :=
  ⟨search_limit_and_document_order.1 c3Doc 3 (by decide),
   search_limit_and_document_order.2.2.1 emptyResultsDoc 10 rfl⟩

/-- Counterexample to C4 as stated: a search call can return a summary
whose `url` does not start with the site origin, because an href that does
not start with `/` is passed through unmodified. -/
theorem summary_url_not_absolute_counterexample :
    ∃ s, s ∈ _search_medium_articles c4Doc 10 ∧
      pyStartsWith s.url "https://medium.com" = false := by
  refine ⟨⟨"t", "relative-path", "Unknown", "t"⟩, by decide, by decide⟩

/-- Claim C4 (amended): the `url` of every produced summary is the first
link's href with site-relative hrefs (those starting with `/`) rewritten by
prefixing `https://medium.com`, and all other hrefs passed through
unchanged; consequently no returned `url` is site-relative, but a url
starts with the site origin only in the rewritten case. -/
theorem summary_url_origin_rewrite :
    (∀ (e : Node) (s : ArticleSummary), parseSearchResult e = some s →
        s.url = (if pyStartsWith (firstHref e) "/" then "https://medium.com" ++ firstHref e
          else firstHref e)) ∧
    (∀ (doc : List Node) (limit : Int) (s : ArticleSummary),
        s ∈ _search_medium_articles doc limit → pyStartsWith s.url "/" = false) := by
  constructor
  · intro e s h
    exact (parseSearchResult_some_char e s h).1
  · intro doc limit s h
    rcases mem_search_exists_parse doc limit s h with ⟨e, he⟩
    rw [(parseSearchResult_some_char e s he).1]
    split
    · exact pyStartsWith_origin_slash _
    · next hcond => exact Bool.not_eq_true _ ▸ (by simpa using hcond)

/-- Witness for C4 (amended): the rewrite characterization and the
non-site-relative property at concrete inputs. -/
theorem summary_url_origin_rewrite_witness :
    (⟨"t1", "https://medium.com/p/t1", "autht1", "t1"⟩ : ArticleSummary).url =
      (if pyStartsWith (firstHref (previewDiv "t1")) "/" then
        "https://medium.com" ++ firstHref (previewDiv "t1")
      else firstHref (previewDiv "t1")) ∧
    pyStartsWith (ArticleSummary.url ⟨"t", "relative-path", "Unknown", "t"⟩) "/" = false :=
  ⟨summary_url_origin_rewrite.1 (previewDiv "t1") ⟨"t1", "https://medium.com/p/t1", "autht1", "t1"⟩ rfl,
   summary_url_origin_rewrite.2 c4Doc 10 ⟨"t", "relative-path", "Unknown", "t"⟩ (by decide)⟩

/-- Claim C5: for every summary produced by a search call, the snippet is
the title unmodified when the title has at most 100 characters, and the
first 100 characters of the title followed by the ellipsis marker when
longer; hence the snippet never exceeds 103 characters. -/
theorem snippet_truncation (doc : List Node) (limit : Int) (s : ArticleSummary)
    (h : s ∈ _search_medium_articles doc limit) :
    (s.title.length ≤ 100 → s.snippet = s.title) ∧
    (100 < s.title.length → s.snippet = pyTake 100 s.title ++ "...") ∧
    s.snippet.length ≤ 103 := by
  rcases mem_search_exists_parse doc limit s h with ⟨e, he⟩
  have hs := (parseSearchResult_some_char e s he).2
  by_cases h100 : 100 < s.title.length
  · rw [if_pos h100] at hs
    refine ⟨fun hle => absurd h100 (by omega), fun _ => hs, ?_⟩
    rw [hs, String.length_append]
    have htake : (pyTake 100 s.title).length ≤ 100 := by
      have : (pyTake 100 s.title).length = (s.title.toList.take 100).length := rfl
      rw [this, List.length_take]
      omega
    have hdots : ("..." : String).length = 3 := rfl
    omega
  · rw [if_neg h100] at hs
    exact ⟨fun _ => hs, fun hlt => absurd hlt h100, by rw [hs]; omega⟩

/-- Witness for C5: on a page whose container title has 101 characters,
the produced summary's snippet is the 100-character truncation with the
ellipsis marker, of length 103. -/
theorem snippet_truncation_witness :
    (c5Summary.title.length ≤ 100 → c5Summary.snippet = c5Summary.title) ∧
    (100 < c5Summary.title.length → c5Summary.snippet = pyTake 100 c5Summary.title ++ "...") ∧
    c5Summary.snippet.length ≤ 103 :=
  snippet_truncation c5Doc 10 c5Summary (by decide)

/-- Claim C6: the `word_count` of the record returned by an info call is
the number of whitespace-delimited tokens (maximal whitespace-free runs)
of the flattened text of the whole page, an empty document yields 0, and
the value is a non-negative integer. -/
theorem word_count_whitespace_tokens :
    (∀ (doc : List Node) (url : String),
        (articleInfo doc url).word_count = countWords (getTextList doc)) ∧
    (∀ url : String, (articleInfo [] url).word_count = 0) ∧
    (∀ (doc : List Node) (url : String), 0 ≤ ((articleInfo doc url).word_count : Int)) := by
  refine ⟨fun doc url => ?_, fun url => rfl, fun doc url => Int.natCast_nonneg _⟩
  show (pySplit (getTextList doc)).length = countWords (getTextList doc)
  exact pySplit_length_eq _

/-- Claim C7: an info call on a fetched page never raises; a missing
title, author or reading-time node yields the `"Unknown"` sentinel for
that field and a missing `time` element yields a null publish date; on a
concrete page with every node but `time`, all other fields are populated
normally. -/
theorem info_missing_field_sentinels :
    (∀ (doc : List Node) (url : String), ∃ payload,
        _get_medium_article_info (.ok doc) url = .ok payload) ∧
    (∀ (doc : List Node) (url : String), soupFind doc "h1" [] = none →
        (articleInfo doc url).title = "Unknown") ∧
    (∀ (doc : List Node) (url : String),
        soupFind doc "a" [("data-testid", "authorName")] = none →
        (articleInfo doc url).author = "Unknown") ∧
    (∀ (doc : List Node) (url : String),
        soupFind doc "span" [("data-testid", "readingTime")] = none →
        (articleInfo doc url).reading_time = "Unknown") ∧
    (∀ (doc : List Node) (url : String), soupFind doc "time" [] = none →
        (articleInfo doc url).publish_date = none) ∧
    articleInfo c7Doc "https://medium.com/p/y" =
      ⟨"My Title", "Alice", "5 min read", none, "https://medium.com/p/y", 5⟩ := by
  refine ⟨fun doc url => ⟨_, rfl⟩, ?_, ?_, ?_, ?_, by decide⟩
  all_goals intro doc url h
  all_goals simp [articleInfo, h]

/-- Witness for C7: the sentinels at concrete inputs — an empty page uses
`"Unknown"` for title and author, and the page without a `time` element
gets a null publish date. -/
theorem info_missing_field_sentinels_witness :
    (articleInfo [] "https://medium.com/p/y").title = "Unknown" ∧
    (articleInfo [] "https://medium.com/p/y").author = "Unknown" ∧
    (articleInfo c7Doc "https://medium.com/p/y").publish_date = none :=
  ⟨info_missing_field_sentinels.2.1 [] "https://medium.com/p/y" rfl,
   info_missing_field_sentinels.2.2.1 [] "https://medium.com/p/y" rfl,
   info_missing_field_sentinels.2.2.2.2.1 c7Doc "https://medium.com/p/y" rfl⟩

/-- Claim C8: the convert operation's output is identical for any values
of the `include_images` and `include_code` flags, both at the handler and
at the dispatch level: the flags do not influence the conversion. -/
theorem convert_flags_do_not_matter :
    ∀ (page : Except String (List Node)) (url : String) (b1 b2 b3 b4 : Bool),
      _convert_medium_to_markdown page url b1 b2 = _convert_medium_to_markdown page url b3 b4 ∧
      call_tool (.convert page url b1 b2) = call_tool (.convert page url b3 b4) :=
  fun _ _ _ _ _ _ => ⟨rfl, rfl⟩

/-- Counterexample to C9 as stated: `cli.main` tests `if args.port:`, a
Python truthiness test, so the invocation `--port 0` selects the
network-port mode yet starts the stdio server instead of exiting
non-zero. -/
theorem cli_port_zero_counterexample :
    cliMain ⟨false, some 0, false⟩ = CliOutcome.runServer ∧
    cliMain ⟨false, some 0, false⟩ ≠ CliOutcome.exitError "HTTP mode not yet implemented" 1 := by
  decide

/-- Claim C9 (amended to nonzero ports): every command-line invocation
selecting the network-port mode with a nonzero port prints the
not-implemented message to stderr and exits with status 1 instead of
starting the server. -/
theorem cli_nonzero_port_exits :
    ∀ (args : CliArgs) (n : Int), args.port = some n → n ≠ 0 →
      cliMain args = CliOutcome.exitError "HTTP mode not yet implemented" 1 := by
  intro args n hp hn
  simp [cliMain, pyTruthyOptInt, hp, hn]

/-- Witness for C9 (amended): `--port 8080` exits with status 1 and the
not-implemented message. -/
theorem cli_nonzero_port_exits_witness :
    cliMain ⟨false, some 8080, false⟩ = CliOutcome.exitError "HTTP mode not yet implemented" 1 :=
  cli_nonzero_port_exits ⟨false, some 8080, false⟩ 8080 rfl (by decide)

/-- Claim C10: a convert call on a page with an `article` container but no
`h1` element succeeds with first line `# Untitled`, while the info
operation uses the `"Unknown"` sentinel for the same missing node. -/
theorem convert_untitled_vs_info_unknown :
    (∀ (doc : List Node) (url : String) (ii ic : Bool) (a : Node),
        soupFind doc "article" [] = some a → soupFind doc "h1" [] = none →
        _convert_medium_to_markdown (.ok doc) url ii ic =
          .ok [⟨"text", "# Untitled\n\n**Source:** " ++ url ++ "\n\n---\n\n" ++ mdConvert a⟩]) ∧
    (∀ (doc : List Node) (url : String), soupFind doc "h1" [] = none →
        (articleInfo doc url).title = "Unknown") := by
  constructor
  · intro doc url ii ic a ha ht
    simp only [_convert_medium_to_markdown, ha, ht]
    rfl
  · intro doc url h
    simp [articleInfo, h]

/-- Witness for C10: on a concrete `article`-only page the convert output
begins with `# Untitled` and the info title is `"Unknown"`. -/
theorem convert_untitled_vs_info_unknown_witness :
    _convert_medium_to_markdown (.ok c10Doc) "https://medium.com/p/z" true true =
      .ok [⟨"text", "# Untitled\n\n**Source:** https://medium.com/p/z\n\n---\n\nbody text\n\n"⟩] ∧
    (articleInfo c10Doc "https://medium.com/p/z").title = "Unknown" := by
  constructor
  · have h := convert_untitled_vs_info_unknown.1 c10Doc "https://medium.com/p/z" true true
      (Node.elem "article" [] [Node.elem "p" [] [Node.text "body text"]]) rfl rfl
    exact h.trans (congrArg Except.ok (by decide))
  · exact convert_untitled_vs_info_unknown.2 c10Doc "https://medium.com/p/z" rfl

end MediumScraper
